import Mathlib

/-!
Verification of the account health/risk classification and intervention
engine of the Revenue-Intelligence-Dashboard repository (src/app.py).

The engine consists of
* the risk classification ladder inlined in `generate_enterprise_data`
  (src/app.py lines 77-81),
* the intervention filter building `action_df` (src/app.py lines 290-293),
* `get_strategic_playbook` (src/app.py lines 296-304) and
  `get_rationale` (src/app.py lines 307-315).

Modelling notes:
* A dataframe row is modelled by the structure `Row`; the fields not read
  by the engine (account name, industry, tier, NPS, open tickets) are kept
  so that independence from them can be stated.
* `ARR` is a float in the source; all comparisons the engine makes on it
  are against integer thresholds, so it is modelled as an `Int`.  The only
  float operation, the `:.0f` formatting of `ARR/1000` in a rationale
  f-string, is modelled exactly for integer ARR by round-half-to-even
  division (`pyDivRound`), which is what Python's fixed-point formatting
  performs on an exactly representable quotient.
* `days_to_renewal` is drawn before the renewal date is stored; the
  classifier reads the integer day count, modelled as the field
  `renewal_days_remaining` (the spec's name for it).
-/

/-- A row of the portfolio dataframe built by `generate_enterprise_data`
(src/app.py lines 83-95), restricted to scalar fields.  `risk_status` is the
column computed at lines 77-81. -/
structure Row where
  account_name : String
  industry : String
  arr : Int
  tier : String
  renewal_days_remaining : Int
  days_since_last_touch : Int
  health_score : Int
  nps : Int
  open_tickets : Int
  risk_status : String
deriving DecidableEq, Repr

/-- The risk classification ladder of src/app.py lines 77-81:
start from "Healthy", overwrite with "Critical" when
`days_to_renewal < 90 and health_score < 50`, else with "At Risk" when
`health_score < 70`. -/
def classify (days_to_renewal health_score : Int) : String :=
  if days_to_renewal < 90 ∧ health_score < 50 then "Critical"
  else if health_score < 70 then "At Risk"
  else "Healthy"

/-- The `Risk_Status` column value the generator assigns to a row from its
own fields (src/app.py lines 77-81 read `days_to_renewal` and
`health_score`). -/
def riskOf (row : Row) : String :=
  classify row.renewal_days_remaining row.health_score

/-- A row with its `risk_status` column filled in by the generator. -/
def attachRisk (row : Row) : Row :=
  { row with risk_status := riskOf row }

/-- The intervention filter of src/app.py lines 290-293:
`(Risk_Status != "Healthy") | (Days_Since_Last_Touch > 90)`. -/
def needs_intervention (risk_status : String) (days_since_last_touch : Int) : Bool :=
  risk_status ≠ "Healthy" ∨ days_since_last_touch > 90

/-- `get_strategic_playbook` of src/app.py lines 296-304, verbatim. -/
def get_strategic_playbook (row : Row) : String :=
  if row.risk_status = "Critical" ∧ row.arr > 250000 then
    "1. Executive Sponsor Call (CEO)"
  else if row.risk_status = "Critical" then
    "2. Risk Mitigation Plan"
  else if row.risk_status = "At Risk" then
    "3. Strategy Session / QBR"
  else
    "4. Value Realization Report"

/-- Round-half-to-even division: the value Python's `:.0f` format prints
for the exact quotient `a / b` (with `b > 0`). -/
def pyDivRound (a b : Int) : Int :=
  let q := a / b
  let r := a % b
  if 2 * r < b then q
  else if b < 2 * r then q + 1
  else if q % 2 = 0 then q else q + 1

/-- The text Python's `f"{arr/1000:.0f}"` produces for an integer `arr`. -/
def fmtThousands (arr : Int) : String :=
  toString (pyDivRound arr 1000)

/-- `get_rationale` of src/app.py lines 307-315, verbatim; the f-strings
are modelled by string concatenation. -/
def get_rationale (row : Row) : String :=
  if row.risk_status = "Critical" ∧ row.arr > 250000 then
    "High Value ($" ++ fmtThousands row.arr ++ "k) + Critical Health"
  else if row.risk_status = "Critical" then
    "Health Score Critical (<50)"
  else if row.risk_status = "At Risk" then
    "Health Score Warning (<70)"
  else
    "Drifting: No Contact for " ++ toString row.days_since_last_touch ++ " Days"

/-- A classified output row: the input row together with the two columns
`Recommended_Playbook` and `Rationale` added at src/app.py lines 318-319. -/
structure ClassifiedAccount where
  row : Row
  recommended_playbook : String
  rationale : String
deriving DecidableEq, Repr

/-- The aggregate operation of src/app.py lines 290-319: filter the
portfolio by the intervention condition, then compute playbook and
rationale for every retained row. -/
def build_intervention_queue (rows : List Row) : List ClassifiedAccount :=
  (rows.filter fun row => needs_intervention row.risk_status row.days_since_last_touch).map
    fun row => ⟨row, get_strategic_playbook row, get_rationale row⟩

/-- The four actions of the playbook, in the priority order of the
`if/elif` ladder of `get_strategic_playbook`.  The spec (§4.2) names them
"Executive Sponsor Escalation", "Risk Mitigation Plan", "Strategy Session"
and "Value Realization Report"; the app renders them as the numbered
playbook strings given by `PlaybookAction.playbookString`. -/
inductive PlaybookAction where
  | executiveSponsorEscalation
  | riskMitigationPlan
  | strategySession
  | valueRealizationReport
deriving DecidableEq, Repr

/-- The string src/app.py lines 296-304 print for each action. -/
def PlaybookAction.playbookString : PlaybookAction → String
  | .executiveSponsorEscalation => "1. Executive Sponsor Call (CEO)"
  | .riskMitigationPlan => "2. Risk Mitigation Plan"
  | .strategySession => "3. Strategy Session / QBR"
  | .valueRealizationReport => "4. Value Realization Report"

/-- The action selected by the ladder of `get_strategic_playbook`. -/
def recommendedAction (row : Row) : PlaybookAction :=
  if row.risk_status = "Critical" ∧ row.arr > 250000 then .executiveSponsorEscalation
  else if row.risk_status = "Critical" then .riskMitigationPlan
  else if row.risk_status = "At Risk" then .strategySession
  else .valueRealizationReport

/-- Which branch of the `get_strategic_playbook` ladder fires on a row:
a branch fires when its guard holds and no earlier guard does. -/
def branchFires (row : Row) : PlaybookAction → Prop
  | .executiveSponsorEscalation =>
      row.risk_status = "Critical" ∧ row.arr > 250000
  | .riskMitigationPlan =>
      ¬(row.risk_status = "Critical" ∧ row.arr > 250000) ∧
      row.risk_status = "Critical"
  | .strategySession =>
      ¬(row.risk_status = "Critical" ∧ row.arr > 250000) ∧
      ¬row.risk_status = "Critical" ∧
      row.risk_status = "At Risk"
  | .valueRealizationReport =>
      ¬(row.risk_status = "Critical" ∧ row.arr > 250000) ∧
      ¬row.risk_status = "Critical" ∧
      ¬row.risk_status = "At Risk"

-- ### Helper lemmas (shared between claims)

/-- String append acts as list append on the underlying character data. -/
theorem string_data_append (a b : String) : (a ++ b).data = a.data ++ b.data := by
  cases a; cases b; rfl

/-- The playbook string is the rendering of the selected action. -/
theorem get_strategic_playbook_eq (row : Row) :
    get_strategic_playbook row = (recommendedAction row).playbookString := by
  unfold get_strategic_playbook recommendedAction
  split_ifs <;> rfl

/-- The ladder's fired branch is exactly the selected action. -/
theorem branchFires_iff (row : Row) (a : PlaybookAction) :
    branchFires row a ↔ recommendedAction row = a := by
  unfold recommendedAction
  cases a <;> unfold branchFires <;> split_ifs <;> simp_all

/-- `C1`: every account with `renewal_days_remaining < 90` (negative
values included) and `health_score < 50` is classified Critical; the rule
needs nothing of the remaining fields, so it takes priority over the other
rules. -/
theorem critical_rule_first (row : Row)
    (hr : row.renewal_days_remaining < 90) (hh : row.health_score < 50) :
    riskOf row = "Critical" := by
  unfold riskOf classify
  rw [if_pos ⟨hr, hh⟩]

/-- Witness for `C1`, at a negative (past-due) renewal count. -/
theorem critical_rule_first_witness :
    (-15 : Int) < 90 ∧ (40 : Int) < 50 ∧
    riskOf { account_name := "Acme", industry := "SaaS", arr := 300000,
             tier := "Tier 1: Strategic", renewal_days_remaining := -15,
             days_since_last_touch := 5, health_score := 40, nps := 3,
             open_tickets := 2, risk_status := "" } = "Critical" :=
  ⟨by decide, by decide,
   critical_rule_first _ (by decide) (by decide)⟩

/-- `C4`: an account not caught by the Critical rule is classified At Risk
whenever `health_score < 70`; in particular every account with
`50 <= health_score < 70` is At Risk whatever its renewal count. -/
theorem at_risk_rule (row : Row) :
    (¬(row.renewal_days_remaining < 90 ∧ row.health_score < 50) →
      row.health_score < 70 → riskOf row = "At Risk") ∧
    (50 ≤ row.health_score → row.health_score < 70 → riskOf row = "At Risk") := by
  constructor
  · intro hn h7
    unfold riskOf classify
    rw [if_neg hn, if_pos h7]
  · intro h50 h7
    unfold riskOf classify
    rw [if_neg (by omega), if_pos h7]

/-- Witness for `C4`: a score of 60 with renewal imminent is At Risk. -/
theorem at_risk_rule_witness :
    (50 : Int) ≤ 60 ∧ (60 : Int) < 70 ∧
    riskOf { account_name := "Beta LLC", industry := "FinTech", arr := 80000,
             tier := "Tier 2: Growth", renewal_days_remaining := 10,
             days_since_last_touch := 30, health_score := 60, nps := 6,
             open_tickets := 1, risk_status := "" } = "At Risk" :=
  ⟨by decide, by decide,
   (at_risk_rule _).2 (by decide) (by decide)⟩

/-- `C5`: an account with `health_score >= 70` is classified Healthy,
whatever its renewal count, ARR or days since last touch. -/
theorem healthy_rule (row : Row) (h : 70 ≤ row.health_score) :
    riskOf row = "Healthy" := by
  unfold riskOf classify
  rw [if_neg (by omega), if_neg (by omega)]

/-- Witness for `C5`: a score of 90 is Healthy even with renewal overdue,
large ARR and long contact drift. -/
theorem healthy_rule_witness :
    (70 : Int) ≤ 90 ∧
    riskOf { account_name := "Gamma Inc", industry := "Logistics", arr := 900000,
             tier := "Tier 1: Strategic", renewal_days_remaining := -10,
             days_since_last_touch := 120, health_score := 90, nps := 9,
             open_tickets := 0, risk_status := "" } = "Healthy" :=
  ⟨by decide, healthy_rule _ (by decide)⟩

/-- `C2`: a row appears in the intervention queue exactly when it is an
input row whose risk status is not Healthy or whose days since last touch
exceed 90; rows failing both conditions yield no output entry at all. -/
theorem intervention_queue_mem (rows : List Row) (row : Row) :
    (∃ c ∈ build_intervention_queue rows, c.row = row) ↔
      row ∈ rows ∧ (row.risk_status ≠ "Healthy" ∨ row.days_since_last_touch > 90) := by
  unfold build_intervention_queue needs_intervention
  constructor
  · rintro ⟨c, hc, hrow⟩
    rcases List.mem_map.mp hc with ⟨a, ha, rfl⟩
    rcases List.mem_filter.mp ha with ⟨hmem, hcond⟩
    subst hrow
    exact ⟨hmem, of_decide_eq_true hcond⟩
  · rintro ⟨hmem, hcond⟩
    refine ⟨⟨row, get_strategic_playbook row, get_rationale row⟩, ?_, rfl⟩
    exact List.mem_map.mpr ⟨row,
      List.mem_filter.mpr ⟨hmem, decide_eq_true hcond⟩, rfl⟩

/-- `C8`: the intervention filter is monotone in days since last touch:
with the risk status fixed, qualifying at `d` implies qualifying at any
larger value. -/
theorem intervention_monotone (s : String) (d d' : Int)
    (hq : needs_intervention s d = true) (hd : d < d') :
    needs_intervention s d' = true := by
  unfold needs_intervention at hq ⊢
  rcases of_decide_eq_true hq with h | h
  · exact decide_eq_true (Or.inl h)
  · exact decide_eq_true (Or.inr (by omega))

/-- Witness for `C8`: a Healthy account qualifying at 100 days still
qualifies at 150 days. -/
theorem intervention_monotone_witness :
    needs_intervention "Healthy" 100 = true ∧ (100 : Int) < 150 ∧
    needs_intervention "Healthy" 150 = true :=
  ⟨by decide, by decide,
   intervention_monotone "Healthy" 100 150 (by decide) (by decide)⟩

/-- The high-value rationale never coincides with the critical-threshold
message, whatever the formatted amount. -/
theorem highValue_ne_critMsg (s : String) :
    "High Value ($" ++ s ++ "k) + Critical Health" ≠ "Health Score Critical (<50)" := by
  intro h
  have h2 : (['H','i'] : List Char) = ['H','e'] :=
    congrArg (fun t => t.data.take 2) h
  exact absurd h2 (by decide)

/-- The high-value rationale never coincides with the warning-threshold
message. -/
theorem highValue_ne_warnMsg (s : String) :
    "High Value ($" ++ s ++ "k) + Critical Health" ≠ "Health Score Warning (<70)" := by
  intro h
  have h2 : (['H','i'] : List Char) = ['H','e'] :=
    congrArg (fun t => t.data.take 2) h
  exact absurd h2 (by decide)

/-- The high-value rationale never coincides with a drifting message. -/
theorem highValue_ne_driftMsg (s t : String) :
    "High Value ($" ++ s ++ "k) + Critical Health" ≠
      "Drifting: No Contact for " ++ t ++ " Days" := by
  intro h
  have h2 : (['H','i'] : List Char) = ['D','r'] :=
    congrArg (fun u => u.data.take 2) h
  exact absurd h2 (by decide)

/-- A drifting message never coincides with the critical-threshold
message. -/
theorem drift_ne_critMsg (t : String) :
    "Drifting: No Contact for " ++ t ++ " Days" ≠ "Health Score Critical (<50)" := by
  intro h
  have h2 : (['D','r'] : List Char) = ['H','e'] :=
    congrArg (fun u => u.data.take 2) h
  exact absurd h2 (by decide)

/-- A drifting message never coincides with the warning-threshold
message. -/
theorem drift_ne_warnMsg (t : String) :
    "Drifting: No Contact for " ++ t ++ " Days" ≠ "Health Score Warning (<70)" := by
  intro h
  have h2 : (['D','r'] : List Char) = ['H','e'] :=
    congrArg (fun u => u.data.take 2) h
  exact absurd h2 (by decide)

/-- `C3`: a Critical account with ARR above 250000 qualifies for the
queue, receives the executive sponsor escalation playbook (rendered as
"1. Executive Sponsor Call (CEO)") and a rationale citing the ARR in
thousands together with critical health. -/
theorem exec_escalation (row : Row)
    (hc : row.risk_status = "Critical") (ha : row.arr > 250000) :
    needs_intervention row.risk_status row.days_since_last_touch = true ∧
    recommendedAction row = .executiveSponsorEscalation ∧
    get_strategic_playbook row = "1. Executive Sponsor Call (CEO)" ∧
    get_rationale row = "High Value ($" ++ fmtThousands row.arr ++ "k) + Critical Health" := by
  have hne : row.risk_status ≠ "Healthy" := by rw [hc]; decide
  refine ⟨?_, ?_, ?_, ?_⟩
  · unfold needs_intervention
    exact decide_eq_true (Or.inl hne)
  · unfold recommendedAction
    rw [if_pos ⟨hc, ha⟩]
  · unfold get_strategic_playbook
    rw [if_pos ⟨hc, ha⟩]
  · unfold get_rationale
    rw [if_pos ⟨hc, ha⟩]

/-- Witness for `C3`, at ARR 300000: the rationale shows "$300k". -/
theorem exec_escalation_witness :
    ({ account_name := "Delta Corp", industry := "Healthcare", arr := 300000,
       tier := "Tier 1: Strategic", renewal_days_remaining := 10,
       days_since_last_touch := 20, health_score := 40, nps := 2,
       open_tickets := 7, risk_status := "Critical" } : Row).arr > 250000 ∧
    get_strategic_playbook
      { account_name := "Delta Corp", industry := "Healthcare", arr := 300000,
        tier := "Tier 1: Strategic", renewal_days_remaining := 10,
        days_since_last_touch := 20, health_score := 40, nps := 2,
        open_tickets := 7, risk_status := "Critical" } = "1. Executive Sponsor Call (CEO)" ∧
    get_rationale
      { account_name := "Delta Corp", industry := "Healthcare", arr := 300000,
        tier := "Tier 1: Strategic", renewal_days_remaining := 10,
        days_since_last_touch := 20, health_score := 40, nps := 2,
        open_tickets := 7, risk_status := "Critical" } = "High Value ($300k) + Critical Health" := by
  have h := exec_escalation
    { account_name := "Delta Corp", industry := "Healthcare", arr := 300000,
      tier := "Tier 1: Strategic", renewal_days_remaining := 10,
      days_since_last_touch := 20, health_score := 40, nps := 2,
      open_tickets := 7, risk_status := "Critical" } rfl (by decide)
  exact ⟨by decide, h.2.2.1, h.2.2.2⟩

/-- `C6`: a Healthy account in the queue is there through the drift
condition, so its days since last touch exceed 90; it receives the value
realization playbook and the drifting rationale naming exactly that day
count. -/
theorem healthy_drift (row : Row)
    (hh : row.risk_status = "Healthy")
    (hq : needs_intervention row.risk_status row.days_since_last_touch = true) :
    row.days_since_last_touch > 90 ∧
    recommendedAction row = .valueRealizationReport ∧
    get_strategic_playbook row = "4. Value Realization Report" ∧
    get_rationale row =
      "Drifting: No Contact for " ++ toString row.days_since_last_touch ++ " Days" := by
  unfold needs_intervention at hq
  have hd : row.days_since_last_touch > 90 := by
    rcases of_decide_eq_true hq with h | h
    · exact absurd hh h
    · exact h
  have hnc : ¬row.risk_status = "Critical" := by rw [hh]; decide
  have hna : ¬row.risk_status = "At Risk" := by rw [hh]; decide
  have hn1 : ¬(row.risk_status = "Critical" ∧ row.arr > 250000) := fun h => hnc h.1
  refine ⟨hd, ?_, ?_, ?_⟩
  · unfold recommendedAction
    rw [if_neg hn1, if_neg hnc, if_neg hna]
  · unfold get_strategic_playbook
    rw [if_neg hn1, if_neg hnc, if_neg hna]
  · unfold get_rationale
    rw [if_neg hn1, if_neg hnc, if_neg hna]

/-- Witness for `C6`, at 120 days of drift: the rationale mentions 120. -/
theorem healthy_drift_witness :
    needs_intervention "Healthy" 120 = true ∧
    get_strategic_playbook
      { account_name := "Epsilon AG", industry := "E-commerce", arr := 60000,
        tier := "Tier 2: Growth", renewal_days_remaining := 200,
        days_since_last_touch := 120, health_score := 90, nps := 9,
        open_tickets := 0, risk_status := "Healthy" } = "4. Value Realization Report" ∧
    get_rationale
      { account_name := "Epsilon AG", industry := "E-commerce", arr := 60000,
        tier := "Tier 2: Growth", renewal_days_remaining := 200,
        days_since_last_touch := 120, health_score := 90, nps := 9,
        open_tickets := 0, risk_status := "Healthy" } = "Drifting: No Contact for 120 Days" := by
  have h := healthy_drift
    { account_name := "Epsilon AG", industry := "E-commerce", arr := 60000,
      tier := "Tier 2: Growth", renewal_days_remaining := 200,
      days_since_last_touch := 120, health_score := 90, nps := 9,
      open_tickets := 0, risk_status := "Healthy" } rfl (by decide)
  exact ⟨by decide, h.2.2.1, h.2.2.2⟩

/-- `C7`: on every qualifying account exactly one branch of the playbook
ladder fires, and the fired branch determines the printed playbook. -/
theorem playbook_total (row : Row)
    (_hq : needs_intervention row.risk_status row.days_since_last_touch = true) :
    (∃! a : PlaybookAction, branchFires row a) ∧
    ∀ a : PlaybookAction, branchFires row a →
      get_strategic_playbook row = a.playbookString := by
  refine ⟨⟨recommendedAction row, (branchFires_iff row _).mpr rfl,
    fun a ha => ((branchFires_iff row a).mp ha).symm⟩, ?_⟩
  intro a ha
  rw [get_strategic_playbook_eq, (branchFires_iff row a).mp ha]

/-- Witness for `C7`, on a qualifying At Risk account. -/
theorem playbook_total_witness :
    needs_intervention "At Risk" 30 = true ∧
    (∃! a : PlaybookAction, branchFires
      { account_name := "Zeta SA", industry := "Manufacturing", arr := 80000,
        tier := "Tier 2: Growth", renewal_days_remaining := 200,
        days_since_last_touch := 30, health_score := 65, nps := 7,
        open_tickets := 2, risk_status := "At Risk" } a) :=
  ⟨by decide,
   (playbook_total
     { account_name := "Zeta SA", industry := "Manufacturing", arr := 80000,
       tier := "Tier 2: Growth", renewal_days_remaining := 200,
       days_since_last_touch := 30, health_score := 65, nps := 7,
       open_tickets := 2, risk_status := "At Risk" } (by decide)).1⟩

/-- `C9`: classification and the action/rationale pipeline are pure
functions of the four fields `health_score`, `renewal_days_remaining`,
`arr` and `days_since_last_touch`: two rows agreeing on these four fields
receive identical risk status, playbook and rationale, whatever their
other fields; in particular identical inputs give identical outputs. -/
theorem classification_pure (a b : Row)
    (h1 : a.health_score = b.health_score)
    (h2 : a.renewal_days_remaining = b.renewal_days_remaining)
    (h3 : a.arr = b.arr)
    (h4 : a.days_since_last_touch = b.days_since_last_touch) :
    riskOf a = riskOf b ∧
    get_strategic_playbook (attachRisk a) = get_strategic_playbook (attachRisk b) ∧
    get_rationale (attachRisk a) = get_rationale (attachRisk b) := by
  have hr : riskOf a = riskOf b := by
    unfold riskOf
    rw [h1, h2]
  refine ⟨hr, ?_, ?_⟩
  · simp only [get_strategic_playbook, attachRisk]
    simp only [hr, h3]
  · simp only [get_rationale, attachRisk]
    simp only [hr, h3, h4]

/-- Witness for `C9`: two rows sharing only the four classified fields
(all other fields differ) produce the same risk, playbook and rationale. -/
theorem classification_pure_witness :
    riskOf { account_name := "Eta Ltd", industry := "SaaS", arr := 400000,
             tier := "Tier 1: Strategic", renewal_days_remaining := 30,
             days_since_last_touch := 12, health_score := 45, nps := 3,
             open_tickets := 9, risk_status := "" } =
      riskOf { account_name := "Theta GmbH", industry := "Logistics", arr := 400000,
               tier := "Tier 3: SMB", renewal_days_remaining := 30,
               days_since_last_touch := 12, health_score := 45, nps := 10,
               open_tickets := 0, risk_status := "stale" } ∧
    get_rationale (attachRisk
      { account_name := "Eta Ltd", industry := "SaaS", arr := 400000,
        tier := "Tier 1: Strategic", renewal_days_remaining := 30,
        days_since_last_touch := 12, health_score := 45, nps := 3,
        open_tickets := 9, risk_status := "" }) =
      get_rationale (attachRisk
        { account_name := "Theta GmbH", industry := "Logistics", arr := 400000,
          tier := "Tier 3: SMB", renewal_days_remaining := 30,
          days_since_last_touch := 12, health_score := 45, nps := 10,
          open_tickets := 0, risk_status := "stale" }) := by
  have h := classification_pure
    { account_name := "Eta Ltd", industry := "SaaS", arr := 400000,
      tier := "Tier 1: Strategic", renewal_days_remaining := 30,
      days_since_last_touch := 12, health_score := 45, nps := 3,
      open_tickets := 9, risk_status := "" }
    { account_name := "Theta GmbH", industry := "Logistics", arr := 400000,
      tier := "Tier 3: SMB", renewal_days_remaining := 30,
      days_since_last_touch := 12, health_score := 45, nps := 10,
      open_tickets := 0, risk_status := "stale" } rfl rfl rfl rfl
  exact ⟨h.1, h.2.2⟩

/-- `C10`: playbook and rationale branch on the same conditions, so on
every qualifying account the pair never desynchronizes: each playbook
string is produced exactly when the matching rationale message is. -/
theorem action_rationale_sync (row : Row)
    (_hq : needs_intervention row.risk_status row.days_since_last_touch = true) :
    (get_strategic_playbook row = "1. Executive Sponsor Call (CEO)" ↔
      get_rationale row = "High Value ($" ++ fmtThousands row.arr ++ "k) + Critical Health") ∧
    (get_strategic_playbook row = "2. Risk Mitigation Plan" ↔
      get_rationale row = "Health Score Critical (<50)") ∧
    (get_strategic_playbook row = "3. Strategy Session / QBR" ↔
      get_rationale row = "Health Score Warning (<70)") ∧
    (get_strategic_playbook row = "4. Value Realization Report" ↔
      get_rationale row =
        "Drifting: No Contact for " ++ toString row.days_since_last_touch ++ " Days") := by
  unfold get_strategic_playbook get_rationale
  split_ifs
  · exact ⟨iff_of_true rfl rfl,
      iff_of_false (by decide) (highValue_ne_critMsg _),
      iff_of_false (by decide) (highValue_ne_warnMsg _),
      iff_of_false (by decide) (highValue_ne_driftMsg _ _)⟩
  · exact ⟨iff_of_false (by decide) (Ne.symm (highValue_ne_critMsg _)),
      iff_of_true rfl rfl,
      iff_of_false (by decide) (by decide),
      iff_of_false (by decide) (Ne.symm (drift_ne_critMsg _))⟩
  · exact ⟨iff_of_false (by decide) (Ne.symm (highValue_ne_warnMsg _)),
      iff_of_false (by decide) (by decide),
      iff_of_true rfl rfl,
      iff_of_false (by decide) (Ne.symm (drift_ne_warnMsg _))⟩
  · exact ⟨iff_of_false (by decide) (Ne.symm (highValue_ne_driftMsg _ _)),
      iff_of_false (by decide) (drift_ne_critMsg _),
      iff_of_false (by decide) (drift_ne_warnMsg _),
      iff_of_true rfl rfl⟩

/-- Witness for `C10`, on a qualifying Critical account with ARR 100000:
the mitigation playbook pairs with the critical-threshold message. -/
theorem action_rationale_sync_witness :
    needs_intervention "Critical" 5 = true ∧
    (get_strategic_playbook
        { account_name := "Iota BV", industry := "FinTech", arr := 100000,
          tier := "Tier 2: Growth", renewal_days_remaining := 10,
          days_since_last_touch := 5, health_score := 40, nps := 4,
          open_tickets := 3, risk_status := "Critical" } = "2. Risk Mitigation Plan" ↔
      get_rationale
        { account_name := "Iota BV", industry := "FinTech", arr := 100000,
          tier := "Tier 2: Growth", renewal_days_remaining := 10,
          days_since_last_touch := 5, health_score := 40, nps := 4,
          open_tickets := 3, risk_status := "Critical" } = "Health Score Critical (<50)") :=
  ⟨by decide,
   (action_rationale_sync
     { account_name := "Iota BV", industry := "FinTech", arr := 100000,
       tier := "Tier 2: Growth", renewal_days_remaining := 10,
       days_since_last_touch := 5, health_score := 40, nps := 4,
       open_tickets := 3, risk_status := "Critical" } (by decide)).2.1⟩
